import Mathlib

/-
Verification of the coloredlids property/matter evaluation model and the
pipe axial-velocity function against their natural-language specification.

The repository's `property.py` (the `Property` class), `conversion.py` /
`Parameter.py` (unit helpers) are not part of the sources at hand; where a
definition depends on them it is modelled from the specification and its
doc comment says so.  Everything else is translated from the Python
sources (`matter.py`, `gases.py`, `pipe_velocity.py`, `FerrousMetals.py`).
-/

namespace Coloredlids

/-- Modelled from the spec: `conversion.py` / `Parameter.py` are absent from
the sources; `C2K(celsius) -> kelvin` is the pure Celsius-to-Kelvin
conversion (consistent with `genericmatter.py` using `C2K(20)` alongside the
reference pressure `101.325e3`). -/
def C2K (c : ℚ) : ℚ := c + 273.15

/-- Modelled from the spec: `conversion.py` is absent from the sources;
`atm()` is the standard-atmosphere constant in Pascal (consistent with
`genericmatter.py` setting `rho.p.ref = 101.325e3`). -/
def atm : ℚ := 101325

/-- Names of the `Property` slots owned by a `Matter`/`Fluid` instance
(`matter.py`, `Matter.__init__` and `Fluid.__init__`). -/
inductive PropKey
  | a
  | beta
  | c_p
  | c_sound
  | E
  | lambda_
  | rho
  | rho_el
  | mu
  | nu
  | Pr
  deriving DecidableEq

/-- Modelled from the spec: `property.py` is absent from the sources; these
are the error kinds of section 7 that property evaluation can surface
(`PropertyNotDefined` for an unset calc, `CircularEvaluation` for a rule
that recurses back into a property already being evaluated). -/
inductive PropError
  | notDefined
  | circular
  deriving DecidableEq

/-- Reference state of the density property: `self.rho.ref`,
`self.rho.T.ref` and `self.rho.p.ref` in `matter.py` (read by the default
density rule at call time). -/
structure Refs where
  rho_ref : ℚ
  rho_T_ref : ℚ
  rho_p_ref : ℚ

/-- A calculation rule `calc(T, p, x)`.  A rule receives the current
reference state and an evaluator for sibling properties (late binding: a
derived rule reads the sibling's current calc at call time), then the
state `(T, p, x)`. -/
def CalcRule : Type :=
  Refs → (PropKey → ℚ → ℚ → ℚ → Except PropError ℚ) → ℚ → ℚ → ℚ →
    Except PropError ℚ

/-- A closed-form constant rule, as assigned by concrete substances
(e.g. `self.beta.calc = lambda T, p, x: 17e-6` in `FerrousMetals.py`). -/
def constRule (q : ℚ) : CalcRule := fun _ _ _ _ _ => Except.ok q

/-- Modelled from the spec: `property.py` is absent from the sources; a
`Property` call with omitted arguments (such as `self.beta()` inside the
default density rule of `matter.py`) evaluates the current calc rule at
these default arguments. -/
def defaultArg : ℚ := 0

/-- Default rule of `a` from `matter.py`:
`self.lambda_.calc(T,p,x) / (self.c_p.calc(T,p,x) * self.rho.calc(T,p,x))`. -/
def aRule : CalcRule := fun _ ev T p x => do
  let lam ← ev PropKey.lambda_ T p x
  let cp ← ev PropKey.c_p T p x
  let r ← ev PropKey.rho T p x
  Except.ok (lam / (cp * r))

/-- Default rule of `c_sound` from `matter.py`: `lambda T, p, x: 1.`. -/
def cSoundRule : CalcRule := fun _ _ _ _ _ => Except.ok 1

/-- Default density rule of `matter.py` when `E` is unset or negligible:
`self.rho.ref / (1. + (T - self.rho.T.ref) * self.beta())`. -/
def rhoRuleNoE : CalcRule := fun refs ev T _p _x => do
  let b ← ev PropKey.beta defaultArg defaultArg defaultArg
  Except.ok (refs.rho_ref / (1 + (T - refs.rho_T_ref) * b))

/-- Default density rule of `matter.py` when `E` is non-negligible:
`self.rho.ref / (1. + (T - self.rho.T.ref) * self.beta())
             / (1. - (p - self.rho.p.ref) / self.E())`. -/
def rhoRuleWithE : CalcRule := fun refs ev T p _x => do
  let b ← ev PropKey.beta defaultArg defaultArg defaultArg
  let e ← ev PropKey.E defaultArg defaultArg defaultArg
  Except.ok (refs.rho_ref / (1 + (T - refs.rho_T_ref) * b)
    / (1 - (p - refs.rho_p_ref) / e))

/-- Branch selection of `matter.py` lines 88-94: performed once, at
construction time, on the value `self.E()` returns there (`E0`); the
first branch is taken when `E` is unset (`None`) or negligible. -/
def rhoDefaultRule (E0 : Option ℚ) : CalcRule :=
  match E0 with
  | none => rhoRuleNoE
  | some e => if |e| < 1e-20 then rhoRuleNoE else rhoRuleWithE

/-- Default rule of `mu` from `Fluid.__init__` in `matter.py`:
`lambda T, p, x: self.nu.calc(T, p, x) * self.rho.calc(T, p, x)`. -/
def muRule : CalcRule := fun _ ev T p x => do
  let nv ← ev PropKey.nu T p x
  let rv ← ev PropKey.rho T p x
  Except.ok (nv * rv)

/-- Default rule of `nu` from `Fluid.__init__` in `matter.py`:
`lambda T, p, x: self.mu.calc(T, p, x) / self.rho.calc(T, p, x)`. -/
def nuRule : CalcRule := fun _ ev T p x => do
  let mv ← ev PropKey.mu T p x
  let rv ← ev PropKey.rho T p x
  Except.ok (mv / rv)

/-- Default rule of `Pr` from `Fluid.__init__` in `matter.py`:
`lambda T, p, x: self.a.calc(T, p, x) / self.nu.calc(T, p, x)`. -/
def prRule : CalcRule := fun _ ev T p x => do
  let av ← ev PropKey.a T p x
  let nv ← ev PropKey.nu T p x
  Except.ok (av / nv)

/-- Calc wiring performed by `Matter.__init__` in `matter.py`: `a` and
`c_sound` get default rules, `rho` gets the branch selected from the
construction-time value `E0` of `self.E()` (always `None` for the classes
in the sources, since `E` is created unset right before the test; `E0` is
kept as a parameter so that the branch condition of lines 88-94 can be
stated for a construction-time `E` of any value), `E` holds `E0` as a
constant rule when present, and `beta`, `c_p`, `lambda_`, `rho_el` are
left unset. -/
def matterCalcs (E0 : Option ℚ) : PropKey → Option CalcRule := fun k =>
  match k with
  | PropKey.a => some aRule
  | PropKey.c_sound => some cSoundRule
  | PropKey.E => E0.map constRule
  | PropKey.rho => some (rhoDefaultRule E0)
  | _ => none

/-- Additional calc wiring performed by `Fluid.__init__` in `matter.py`
on top of `Matter.__init__` (which it calls with `E` unset): the mutually
circular `mu`/`nu` defaults and `Pr`. -/
def fluidCalcs : PropKey → Option CalcRule := fun k =>
  match k with
  | PropKey.mu => some muRule
  | PropKey.nu => some nuRule
  | PropKey.Pr => some prRule
  | k => matterCalcs none k

/-- State of one `Matter` instance: the current calc rule of every
property slot plus the density reference state. -/
structure MatterState where
  calcs : PropKey → Option CalcRule
  refs : Refs

/-- A `Matter` instance as built by `Matter.__init__` with the given
construction-time `E` and density reference state. -/
def mkMatter (E0 : Option ℚ) (refs : Refs) : MatterState :=
  ⟨matterCalcs E0, refs⟩

/-- A `Fluid` instance as built by `Fluid.__init__`. -/
def mkFluid (refs : Refs) : MatterState :=
  ⟨fluidCalcs, refs⟩

/-- Reassignment of a property's calc rule (`prop.calc = ...` /
`set_calc`), allowed at any time after construction. -/
def setCalc (m : MatterState) (k : PropKey) (rule : CalcRule) : MatterState :=
  { m with calcs := fun k2 => if k2 = k then some rule else m.calcs k2 }

/-- Modelled from the spec: `property.py` is absent from the sources;
`Property.evaluate` (section 4.2) invokes the currently assigned calc,
fails with `PropertyNotDefined` if the calc is unset, and fails with
`CircularEvaluation` if evaluation recurses back into a property already
being evaluated (the `stack` of in-progress properties).  The fuel bounds
the recursion like Python's stack limit; running out of fuel is also an
undetected circularity. -/
def evalProp (m : MatterState) :
    Nat → List PropKey → PropKey → ℚ → ℚ → ℚ → Except PropError ℚ
  | 0, _, _, _, _, _ => Except.error PropError.circular
  | fuel + 1, stack, k, T, p, x =>
    if k ∈ stack then Except.error PropError.circular
    else
      match m.calcs k with
      | none => Except.error PropError.notDefined
      | some rule =>
        rule m.refs (fun k2 => evalProp m fuel (k :: stack) k2) T p x

/-- Evaluation of one property at `(T, p, x)`.  The fuel `12` exceeds the
number of property slots, so the circularity guard always fires before
the fuel runs out. -/
def evaluate (m : MatterState) (k : PropKey) (T p x : ℚ) :
    Except PropError ℚ :=
  evalProp m 12 [] k T p x

lemma evaluate_def (m : MatterState) (k : PropKey) (T p x : ℚ) :
    evaluate m k T p x
      = if k ∈ ([] : List PropKey) then Except.error PropError.circular
        else
          match m.calcs k with
          | none => Except.error PropError.notDefined
          | some rule =>
            rule m.refs (fun k2 => evalProp m 11 [k] k2) T p x := rfl

lemma evalProp_notMem_some (m : MatterState) (fuel : Nat)
    (stack : List PropKey) (k : PropKey) (T p x : ℚ) (rule : CalcRule)
    (h : k ∉ stack) (hc : m.calcs k = some rule) :
    evalProp m (fuel + 1) stack k T p x
      = rule m.refs (fun k2 => evalProp m fuel (k :: stack) k2) T p x := by
  simp [evalProp, h, hc]

lemma evalProp_notMem_none (m : MatterState) (fuel : Nat)
    (stack : List PropKey) (k : PropKey) (T p x : ℚ)
    (h : k ∉ stack) (hc : m.calcs k = none) :
    evalProp m (fuel + 1) stack k T p x = Except.error PropError.notDefined := by
  simp [evalProp, h, hc]

lemma evalProp_mem (m : MatterState) (fuel : Nat) (stack : List PropKey)
    (k : PropKey) (T p x : ℚ) (h : k ∈ stack) :
    evalProp m (fuel + 1) stack k T p x = Except.error PropError.circular := by
  simp [evalProp, h]

/-- C1: for a `Fluid` whose `rho.calc` has been reassigned to the constant
`R` (nonzero) and whose `mu.calc` has been reassigned to the constant `M`,
evaluating `nu` at any `(T, p, x)` returns exactly `M / R`, i.e. the value
of `mu` divided by the value of `rho`: the default `nu` rule reads the
current calc of `mu` and `rho` at call time. -/
theorem nu_reads_current_calcs (refs : Refs) (R M T p x : ℚ) (hR : R ≠ 0) :
    evaluate (setCalc (setCalc (mkFluid refs) PropKey.rho (constRule R))
        PropKey.mu (constRule M)) PropKey.mu T p x = Except.ok M ∧
    evaluate (setCalc (setCalc (mkFluid refs) PropKey.rho (constRule R))
        PropKey.mu (constRule M)) PropKey.rho T p x = Except.ok R ∧
    evaluate (setCalc (setCalc (mkFluid refs) PropKey.rho (constRule R))
        PropKey.mu (constRule M)) PropKey.nu T p x = Except.ok (M / R) := by
  exact ⟨rfl, rfl, rfl⟩

/-- C1 witness: the late-binding law evaluated at a concrete fluid with
`rho.calc` constantly `2`, `mu.calc` constantly `6`, at `(300, 1, 0)`. -/
theorem nu_reads_current_calcs_witness :
    (2 : ℚ) ≠ 0 ∧
    evaluate (setCalc (setCalc (mkFluid ⟨1, C2K 20, atm⟩) PropKey.rho
        (constRule 2)) PropKey.mu (constRule 6)) PropKey.nu 300 1 0
      = Except.ok ((6 : ℚ) / 2) :=
  ⟨by norm_num, (nu_reads_current_calcs ⟨1, C2K 20, atm⟩ 2 6 300 1 0
    (by norm_num)).2.2⟩

lemma evaluate_setBeta_rho (E0 : Option ℚ) (refs : Refs) (b T p x : ℚ) :
    evaluate (setCalc (mkMatter E0 refs) PropKey.beta (constRule b))
        PropKey.rho T p x
      = rhoDefaultRule E0 refs
          (fun k2 => evalProp
            (setCalc (mkMatter E0 refs) PropKey.beta (constRule b))
            11 [PropKey.rho] k2) T p x := rfl

/-- C2: for a `Matter` instance whose `E` is unset or negligible
(`|E| < 1e-20`) at construction and whose `beta` is defined (here: set to
the constant `b`), the default density rule returns
`rho.reference_value / (1 + (T - rho.reference_T) * beta())`, and the
result does not depend on `p`. -/
theorem rho_default_without_E (E0 : Option ℚ) (refs : Refs)
    (b T p p2 x : ℚ)
    (hE : E0 = none ∨ ∃ e, E0 = some e ∧ |e| < 1e-20) :
    evaluate (setCalc (mkMatter E0 refs) PropKey.beta (constRule b))
        PropKey.rho T p x
      = Except.ok (refs.rho_ref / (1 + (T - refs.rho_T_ref) * b)) ∧
    evaluate (setCalc (mkMatter E0 refs) PropKey.beta (constRule b))
        PropKey.rho T p x
      = evaluate (setCalc (mkMatter E0 refs) PropKey.beta (constRule b))
          PropKey.rho T p2 x := by
  obtain rfl | ⟨e, rfl, he⟩ := hE
  · exact ⟨rfl, rfl⟩
  · have hsel : rhoDefaultRule (some e) = rhoRuleNoE := by
      show (if |e| < 1e-20 then rhoRuleNoE else rhoRuleWithE) = rhoRuleNoE
      rw [if_pos he]
    constructor
    · rw [evaluate_setBeta_rho, hsel]
      rfl
    · rw [evaluate_setBeta_rho, hsel, evaluate_setBeta_rho, hsel]
      rfl

/-- C2 witness: a matter instance with `E` unset, density reference value
`1` at reference temperature `C2K 20`, constant `beta = 1/1000`, evaluated
at `T = 300` and two different pressures. -/
theorem rho_default_without_E_witness :
    ((none : Option ℚ) = none ∨
      ∃ e, (none : Option ℚ) = some e ∧ |e| < 1e-20) ∧
    (evaluate (setCalc (mkMatter none ⟨1, C2K 20, atm⟩) PropKey.beta
        (constRule (1/1000))) PropKey.rho 300 1 0
      = Except.ok ((1 : ℚ) / (1 + (300 - C2K 20) * (1/1000))) ∧
    evaluate (setCalc (mkMatter none ⟨1, C2K 20, atm⟩) PropKey.beta
        (constRule (1/1000))) PropKey.rho 300 1 0
      = evaluate (setCalc (mkMatter none ⟨1, C2K 20, atm⟩) PropKey.beta
          (constRule (1/1000))) PropKey.rho 300 2 0) :=
  ⟨Or.inl rfl,
    rho_default_without_E none ⟨1, C2K 20, atm⟩ (1/1000) 300 1 2 0
      (Or.inl rfl)⟩

/-- C3: for a `Matter` instance whose `E` at construction is set to a
non-negligible value `e` (e.g. `E = 2.2e9`) and whose `beta` is the
constant `b`, the default density rule additionally divides by
`(1 - (p - rho.reference_p) / E())`; with the concrete `E = 2.2e9` and
`p = atm() + 1e5` the returned density differs from the value of the
E-absent rule `rho.reference_value / (1 + (T - rho.reference_T) * beta())`. -/
theorem rho_default_with_E (e : ℚ) (refs : Refs) (b T x : ℚ)
    (he : ¬ |e| < 1e-20)
    (hp : refs.rho_p_ref = atm)
    (hbase : refs.rho_ref / (1 + (T - refs.rho_T_ref) * b) ≠ 0) :
    (∀ p : ℚ,
      evaluate (setCalc (mkMatter (some e) refs) PropKey.beta (constRule b))
          PropKey.rho T p x
        = Except.ok (refs.rho_ref / (1 + (T - refs.rho_T_ref) * b)
            / (1 - (p - refs.rho_p_ref) / e))) ∧
    evaluate (setCalc (mkMatter (some 2.2e9) refs) PropKey.beta
        (constRule b)) PropKey.rho T (atm + 1e5) x
      ≠ Except.ok (refs.rho_ref / (1 + (T - refs.rho_T_ref) * b)) := by
  have hsel : rhoDefaultRule (some e) = rhoRuleWithE := by
    show (if |e| < 1e-20 then rhoRuleNoE else rhoRuleWithE) = rhoRuleWithE
    rw [if_neg he]
  have hsel2 : rhoDefaultRule (some 2.2e9) = rhoRuleWithE := by
    show (if |(2.2e9 : ℚ)| < 1e-20 then rhoRuleNoE else rhoRuleWithE)
      = rhoRuleWithE
    rw [if_neg (by norm_num : ¬ |(2.2e9 : ℚ)| < 1e-20)]
  constructor
  · intro p
    rw [evaluate_setBeta_rho, hsel]
    rfl
  · rw [evaluate_setBeta_rho, hsel2]
    intro hcontra
    have hq : refs.rho_ref / (1 + (T - refs.rho_T_ref) * b)
        / (1 - (atm + 1e5 - refs.rho_p_ref) / 2.2e9)
        = refs.rho_ref / (1 + (T - refs.rho_T_ref) * b) :=
      Except.ok.inj hcontra
    rw [hp] at hq
    have hfac : (1 : ℚ) - (atm + 1e5 - atm) / 2.2e9 = 21999 / 22000 := by
      norm_num
    rw [hfac, div_eq_iff (by norm_num : (21999 / 22000 : ℚ) ≠ 0)] at hq
    apply hbase
    linarith

/-- C3 witness: density reference value `1` at `C2K 20`, constant
`beta = 1/1000`, construction-time `E = 2.2e9`, evaluated at `T = 300`. -/
theorem rho_default_with_E_witness :
    ¬ |(2.2e9 : ℚ)| < 1e-20 ∧
    (⟨1, C2K 20, atm⟩ : Refs).rho_p_ref = atm ∧
    (1 : ℚ) / (1 + (300 - (C2K 20)) * (1/1000)) ≠ 0 ∧
    (evaluate (setCalc (mkMatter (some 2.2e9) ⟨1, C2K 20, atm⟩)
        PropKey.beta (constRule (1/1000))) PropKey.rho 300 (atm + 1e5) 0
      = Except.ok ((1 : ℚ) / (1 + (300 - C2K 20) * (1/1000))
          / (1 - (atm + 1e5 - atm) / 2.2e9)) ∧
    evaluate (setCalc (mkMatter (some 2.2e9) ⟨1, C2K 20, atm⟩)
        PropKey.beta (constRule (1/1000))) PropKey.rho 300 (atm + 1e5) 0
      ≠ Except.ok ((1 : ℚ) / (1 + (300 - C2K 20) * (1/1000)))) := by
  have h := rho_default_with_E 2.2e9 ⟨1, C2K 20, atm⟩ (1/1000) 300 0
    (by norm_num) rfl (by norm_num [C2K])
  exact ⟨by norm_num, rfl, by norm_num [C2K], h.1 (atm + 1e5), h.2⟩

/-- C4: for every `Fluid` instance in which neither `mu.calc` nor
`nu.calc` has been overridden (both still hold the mutually circular
default wiring of `Fluid.__init__`), evaluating `mu` or `nu` at any
`(T, p, x)` fails with the `CircularEvaluation` error. -/
theorem mu_nu_circular (m : MatterState) (T p x : ℚ)
    (hmu : m.calcs PropKey.mu = some muRule)
    (hnu : m.calcs PropKey.nu = some nuRule) :
    evaluate m PropKey.mu T p x = Except.error PropError.circular ∧
    evaluate m PropKey.nu T p x = Except.error PropError.circular := by
  constructor
  · rw [show evaluate m PropKey.mu T p x
        = evalProp m (11 + 1) [] PropKey.mu T p x from rfl]
    rw [evalProp_notMem_some m 11 [] PropKey.mu T p x muRule
      (by simp) hmu]
    show (do
      let nv ← evalProp m (10 + 1) [PropKey.mu] PropKey.nu T p x
      let rv ← evalProp m (10 + 1) [PropKey.mu] PropKey.rho T p x
      Except.ok (nv * rv)) = Except.error PropError.circular
    rw [evalProp_notMem_some m 10 [PropKey.mu] PropKey.nu T p x nuRule
      (by simp) hnu]
    show (do
      let mv ← evalProp m (9 + 1) [PropKey.nu, PropKey.mu] PropKey.mu T p x
      let rv ← evalProp m (9 + 1) [PropKey.nu, PropKey.mu] PropKey.rho T p x
      let nv : ℚ := mv / rv
      let rv2 ← evalProp m (10 + 1) [PropKey.mu] PropKey.rho T p x
      Except.ok (nv * rv2)) = Except.error PropError.circular
    rw [evalProp_mem m 9 [PropKey.nu, PropKey.mu] PropKey.mu T p x
      (by simp)]
    rfl
  · rw [show evaluate m PropKey.nu T p x
        = evalProp m (11 + 1) [] PropKey.nu T p x from rfl]
    rw [evalProp_notMem_some m 11 [] PropKey.nu T p x nuRule
      (by simp) hnu]
    show (do
      let mv ← evalProp m (10 + 1) [PropKey.nu] PropKey.mu T p x
      let rv ← evalProp m (10 + 1) [PropKey.nu] PropKey.rho T p x
      Except.ok (mv / rv)) = Except.error PropError.circular
    rw [evalProp_notMem_some m 10 [PropKey.nu] PropKey.mu T p x muRule
      (by simp) hmu]
    show (do
      let nv ← evalProp m (9 + 1) [PropKey.mu, PropKey.nu] PropKey.nu T p x
      let rv ← evalProp m (9 + 1) [PropKey.mu, PropKey.nu] PropKey.rho T p x
      let mv : ℚ := nv * rv
      let rv2 ← evalProp m (10 + 1) [PropKey.nu] PropKey.rho T p x
      Except.ok (mv / rv2)) = Except.error PropError.circular
    rw [evalProp_mem m 9 [PropKey.mu, PropKey.nu] PropKey.nu T p x
      (by simp)]
    rfl

/-- C4 witness: the bare `Fluid` built by `Fluid.__init__` (no overrides
at all), evaluated at `(300, atm, 0)`. -/
theorem mu_nu_circular_witness :
    (mkFluid ⟨1, C2K 20, atm⟩).calcs PropKey.mu = some muRule ∧
    (mkFluid ⟨1, C2K 20, atm⟩).calcs PropKey.nu = some nuRule ∧
    (evaluate (mkFluid ⟨1, C2K 20, atm⟩) PropKey.mu 300 atm 0
        = Except.error PropError.circular ∧
      evaluate (mkFluid ⟨1, C2K 20, atm⟩) PropKey.nu 300 atm 0
        = Except.error PropError.circular) :=
  ⟨rfl, rfl, mu_nu_circular (mkFluid ⟨1, C2K 20, atm⟩) 300 atm 0 rfl rfl⟩

/-- C8: evaluating a property whose calc rule was never assigned (such as
`c_p` or `lambda_` on a bare `Matter` instance) fails with the
`PropertyNotDefined` error rather than returning a silent default value
such as zero. -/
theorem unset_calc_not_defined (m : MatterState) (k : PropKey)
    (T p x : ℚ) (hk : m.calcs k = none) :
    evaluate m k T p x = Except.error PropError.notDefined := by
  rw [show evaluate m k T p x = evalProp m (11 + 1) [] k T p x from rfl]
  exact evalProp_notMem_none m 11 [] k T p x (by simp) hk

/-- C8 witness: `c_p` and `lambda_` are unset on the bare `Matter` built
by `Matter.__init__`, and evaluating each surfaces `PropertyNotDefined`. -/
theorem unset_calc_not_defined_witness :
    (mkMatter none ⟨1, C2K 20, atm⟩).calcs PropKey.c_p = none ∧
    (mkMatter none ⟨1, C2K 20, atm⟩).calcs PropKey.lambda_ = none ∧
    evaluate (mkMatter none ⟨1, C2K 20, atm⟩) PropKey.c_p 300 atm 0
      = Except.error PropError.notDefined ∧
    evaluate (mkMatter none ⟨1, C2K 20, atm⟩) PropKey.lambda_ 300 atm 0
      = Except.error PropError.notDefined :=
  ⟨rfl, rfl,
    unset_calc_not_defined (mkMatter none ⟨1, C2K 20, atm⟩) PropKey.c_p
      300 atm 0 rfl,
    unset_calc_not_defined (mkMatter none ⟨1, C2K 20, atm⟩)
      PropKey.lambda_ 300 atm 0 rfl⟩

/-- Modelled from the spec: the table-backed lookups in the sources call
the external `np.interp`; the spec describes this collaborator as
`InterpolationTable.lookup` (section 4.3): scan for the bracketing sample
pair `(T_i, T_i+1)` with `T_i <= T <= T_i+1`, linear interpolation
`value_i + (value_i+1 - value_i) * (T - T_i) / (T_i+1 - T_i)`, clamping to
the first value below the first sample and to the last value above the
last sample.  The empty table (excluded by the table invariant) yields 0. -/
def lookup : List (ℚ × ℚ) → ℚ → ℚ
  | [], _ => 0
  | [(_, u1)], _ => u1
  | (t1, u1) :: (t2, u2) :: rest, T =>
    if T ≤ t1 then u1
    else if T ≤ t2 then u1 + (u2 - u1) * (T - t1) / (t2 - t1)
    else lookup ((t2, u2) :: rest) T

lemma lookup_of_le_head (t1 u1 : ℚ) (rest : List (ℚ × ℚ)) (T : ℚ)
    (h : T ≤ t1) : lookup ((t1, u1) :: rest) T = u1 := by
  cases rest with
  | nil => rfl
  | cons b rest2 =>
    obtain ⟨t2, u2⟩ := b
    show (if T ≤ t1 then u1
      else if T ≤ t2 then u1 + (u2 - u1) * (T - t1) / (t2 - t1)
      else lookup ((t2, u2) :: rest2) T) = u1
    rw [if_pos h]

lemma lookup_of_forall_lt :
    ∀ (l : List (ℚ × ℚ)) (T : ℚ) (hne : l ≠ [])
      (_ : ∀ p ∈ l, p.1 < T), lookup l T = (l.getLast hne).2
  | [], _, hne, _ => absurd rfl hne
  | [(_, _)], _, _, _ => rfl
  | (t1, u1) :: (t2, u2) :: rest, T, _, h => by
    have h1 : ¬ T ≤ t1 := not_le.mpr (h (t1, u1) (by simp))
    have h2 : ¬ T ≤ t2 := not_le.mpr (h (t2, u2) (by simp))
    show (if T ≤ t1 then u1
      else if T ≤ t2 then u1 + (u2 - u1) * (T - t1) / (t2 - t1)
      else lookup ((t2, u2) :: rest) T)
      = (((t1, u1) :: (t2, u2) :: rest).getLast (by simp)).2
    rw [if_neg h1, if_neg h2,
      lookup_of_forall_lt ((t2, u2) :: rest) T (by simp)
        (fun q hq => h q (List.mem_cons_of_mem _ hq))]
    rfl

lemma lookup_exact :
    ∀ (l : List (ℚ × ℚ)),
      List.Pairwise (fun a b : ℚ × ℚ => a.1 < b.1) l →
      ∀ tu ∈ l, lookup l tu.1 = tu.2
  | [], _, _, htu => absurd htu (by simp)
  | [(t1, u1)], _, tu, htu => by
    obtain rfl : tu = (t1, u1) := by simpa using htu
    rfl
  | (t1, u1) :: (t2, u2) :: rest, hp, tu, htu => by
    have hhead := (List.pairwise_cons.mp hp).1
    have hp2 := (List.pairwise_cons.mp hp).2
    rcases List.mem_cons.mp htu with rfl | htu2
    · exact lookup_of_le_head t1 u1 _ t1 le_rfl
    · have ht1 : t1 < tu.1 := hhead tu htu2
      rcases List.mem_cons.mp htu2 with rfl | htu3
      · show (if t2 ≤ t1 then u1
          else if t2 ≤ t2 then u1 + (u2 - u1) * (t2 - t1) / (t2 - t1)
          else lookup ((t2, u2) :: rest) t2) = u2
        rw [if_neg (not_le.mpr ht1), if_pos le_rfl, mul_div_assoc,
          div_self (sub_ne_zero.mpr (ne_of_gt ht1)), mul_one]
        ring
      · have ht2 : t2 < tu.1 := (List.pairwise_cons.mp hp2).1 tu htu3
        show (if tu.1 ≤ t1 then u1
          else if tu.1 ≤ t2 then u1 + (u2 - u1) * (tu.1 - t1) / (t2 - t1)
          else lookup ((t2, u2) :: rest) tu.1) = tu.2
        rw [if_neg (not_le.mpr ht1), if_neg (not_le.mpr ht2)]
        exact lookup_exact ((t2, u2) :: rest) hp2 tu htu2

/-- The sample table of `Air_interpolated._c_p` in `gases.py`: specific
heat capacity of air over sample temperatures 100..3000 K (the values
`1.032e3 .. 2.726e3` written as exact integers). -/
def airCpTable : List (ℚ × ℚ) :=
  [(100, 1032), (150, 1012), (200, 1007), (250, 1006), (300, 1007),
   (350, 1009), (400, 1014), (450, 1021), (500, 1030), (550, 1040),
   (600, 1051), (650, 1063), (700, 1075), (750, 1087), (800, 1099),
   (850, 1110), (900, 1121), (950, 1131), (1000, 1141), (1100, 1159),
   (1200, 1175), (1300, 1189), (1400, 1207), (1500, 1230), (1600, 1248),
   (1700, 1267), (1800, 1286), (1900, 1307), (2000, 1337), (2100, 1372),
   (2200, 1417), (2300, 1478), (2400, 1558), (2500, 1665), (3000, 2726)]

/-- C7: the `Air_interpolated._c_p` table has strictly increasing sample
temperatures 100..3000; its lookup is exact at every sample point, returns
the first sample value `1.032e3` for every `T` below the first sample
temperature `100`, and returns the last sample value `2.726e3` for every
`T` above the last sample temperature `3000` (no extrapolation). -/
theorem air_cp_lookup_exact_and_clamps :
    List.Pairwise (fun a b : ℚ × ℚ => a.1 < b.1) airCpTable ∧
    (∀ tu ∈ airCpTable, lookup airCpTable tu.1 = tu.2) ∧
    (∀ T : ℚ, T < 100 → lookup airCpTable T = 1032) ∧
    (∀ T : ℚ, 3000 < T → lookup airCpTable T = 2726) := by
  have hsorted : List.Pairwise (fun a b : ℚ × ℚ => a.1 < b.1) airCpTable :=
    by decide
  refine ⟨hsorted, lookup_exact airCpTable hsorted, ?_, ?_⟩
  · intro T hT
    exact lookup_of_le_head 100 1032 _ T hT.le
  · intro T hT
    have hbound : ∀ q ∈ airCpTable, q.1 ≤ 3000 := by decide
    rw [lookup_of_forall_lt airCpTable T (by decide)
      (fun q hq => lt_of_le_of_lt (hbound q hq) hT)]
    rfl

/-- C7 witness: the clamping laws evaluated at the concrete temperatures
`50` (below the table) and `3500` (above the table), plus exactness at the
interior sample point `600`. -/
theorem air_cp_lookup_exact_and_clamps_witness :
    (50 : ℚ) < 100 ∧ (3000 : ℚ) < 3500 ∧ ((600 : ℚ), (1051 : ℚ)) ∈ airCpTable ∧
    lookup airCpTable 50 = 1032 ∧ lookup airCpTable 3500 = 2726 ∧
    lookup airCpTable 600 = 1051 :=
  ⟨by decide, by decide, by decide,
    air_cp_lookup_exact_and_clamps.2.2.1 50 (by decide),
    air_cp_lookup_exact_and_clamps.2.2.2 3500 (by decide),
    air_cp_lookup_exact_and_clamps.2.1 (600, 1051) (by decide)⟩

/-- The axial pipe velocity profile `v_axial` of `pipe_velocity.py`:
compute `Re = v_mean * d_pipe / nu`; if `Re < 2300` return
`v_max * (1.0 - 4 * (r / d_pipe)**2)` with `v_max = 2 * v_mean`; else take
`reciprocal_of_n = sqrt(lambda_)` when `lambda_` is given and `1 / n`
otherwise (`n` defaulting to `6` when absent), `x = (m + 2) * (m + 1)`,
`v_max = v_mean * x / 2`, and return
`v_max * (1.0 - 2 * r / d_pipe)**reciprocal_of_n`. -/
noncomputable def v_axial (v_mean d_pipe r nu : ℝ)
    (lambda_ : Option ℝ) (n : Option ℝ) : ℝ :=
  if v_mean * d_pipe / nu < 2300 then
    2 * v_mean * (1 - 4 * (r / d_pipe) ^ 2)
  else
    (fun reciprocal_of_n : ℝ =>
      v_mean * ((reciprocal_of_n + 2) * (reciprocal_of_n + 1)) / 2
        * (1 - 2 * r / d_pipe) ^ reciprocal_of_n)
    (match lambda_ with
     | none => 1 / (match n with | none => 6 | some nv => nv)
     | some lv => Real.sqrt lv)

/-- C5: in the laminar regime `v_mean * d_pipe / nu < 2300`, `v_axial`
returns the parabolic profile `2 * v_mean * (1 - (2*r/d_pipe)^2)` for any
`lambda_` and `n`; in particular it returns `2 * v_mean` at the centerline
`r = 0` and `0` at the wall `r = d_pipe / 2`. -/
theorem v_axial_laminar (v_mean d_pipe r nu : ℝ)
    (lambda_ : Option ℝ) (n : Option ℝ)
    (hRe : v_mean * d_pipe / nu < 2300) (hd : d_pipe ≠ 0) :
    v_axial v_mean d_pipe r nu lambda_ n
      = 2 * v_mean * (1 - (2 * r / d_pipe) ^ 2) ∧
    v_axial v_mean d_pipe 0 nu lambda_ n = 2 * v_mean ∧
    v_axial v_mean d_pipe (d_pipe / 2) nu lambda_ n = 0 := by
  refine ⟨?_, ?_, ?_⟩
  · rw [v_axial.eq_def, if_pos hRe]
    ring
  · rw [v_axial.eq_def, if_pos hRe]
    norm_num
  · rw [v_axial.eq_def, if_pos hRe]
    have h12 : d_pipe / 2 / d_pipe = 1 / 2 := by
      rw [div_div, mul_comm, ← div_div, div_self hd]
    rw [h12]
    norm_num

/-- C5 witness: `v_mean = 1`, `d_pipe = 1`, `nu = 1` gives `Re = 1 < 2300`;
the laminar profile at `r = 1/4`, the centerline and the wall. -/
theorem v_axial_laminar_witness :
    (1 : ℝ) * 1 / 1 < 2300 ∧ (1 : ℝ) ≠ 0 ∧
    (v_axial 1 1 (1/4) 1 none (some 6)
        = 2 * 1 * (1 - (2 * (1/4) / 1) ^ 2) ∧
      v_axial 1 1 0 1 none (some 6) = 2 * 1 ∧
      v_axial 1 1 (1/2) 1 none (some 6) = 0) :=
  ⟨by norm_num, by norm_num,
    by
      have h := v_axial_laminar 1 1 (1/4) 1 none (some 6)
        (by norm_num) (by norm_num)
      exact ⟨h.1, h.2.1, by simpa using h.2.2⟩⟩

/-- C6: in the turbulent regime `v_mean * d_pipe / nu >= 2300`, with
`lambda_` not given and `n = 6`, `v_axial` uses `m = 1/6` and returns
`v_mean * (m+2) * (m+1) / 2 * (1 - 2*r/d_pipe)^m`; at the centerline
`r = 0` it returns `v_mean * (1/6+2) * (1/6+1) / 2` and at the wall
`r = d_pipe/2` it returns `0`.  When `lambda_` is given,
`m = sqrt(lambda_)` is used instead of `1/n`. -/
theorem v_axial_turbulent (v_mean d_pipe r nu : ℝ)
    (hRe : 2300 ≤ v_mean * d_pipe / nu) (hd : d_pipe ≠ 0) :
    v_axial v_mean d_pipe r nu none (some 6)
      = v_mean * ((1/6 + 2) * (1/6 + 1)) / 2
        * (1 - 2 * r / d_pipe) ^ ((1 : ℝ)/6) ∧
    v_axial v_mean d_pipe 0 nu none (some 6)
      = v_mean * ((1/6 + 2) * (1/6 + 1)) / 2 ∧
    v_axial v_mean d_pipe (d_pipe / 2) nu none (some 6) = 0 ∧
    (∀ (lv : ℝ) (n : Option ℝ),
      v_axial v_mean d_pipe r nu (some lv) n
        = v_mean * ((Real.sqrt lv + 2) * (Real.sqrt lv + 1)) / 2
          * (1 - 2 * r / d_pipe) ^ Real.sqrt lv) := by
  have hnot : ¬ v_mean * d_pipe / nu < 2300 := not_lt.mpr hRe
  refine ⟨?_, ?_, ?_, ?_⟩
  · rw [v_axial.eq_def, if_neg hnot]
  · rw [v_axial.eq_def, if_neg hnot]
    norm_num
  · rw [v_axial.eq_def, if_neg hnot]
    have hbase : (1 : ℝ) - 2 * (d_pipe / 2) / d_pipe = 0 := by
      field_simp
    show v_mean * ((1/6 + 2) * (1/6 + 1)) / 2
        * (1 - 2 * (d_pipe / 2) / d_pipe) ^ ((1 : ℝ)/6) = 0
    rw [hbase, Real.zero_rpow (by norm_num : ((1 : ℝ)/6) ≠ 0), mul_zero]
  · intro lv n
    rw [v_axial.eq_def, if_neg hnot]

/-- C6 witness: the spec's concrete turbulent case `v_mean = 1`,
`d_pipe = 1`, `nu = 1e-6`, `n = 6` (`Re = 1e6 >= 2300`): centerline value
`(1/6+2) * (1/6+1) / 2` and wall value `0`. -/
theorem v_axial_turbulent_witness :
    (2300 : ℝ) ≤ 1 * 1 / 1e-6 ∧ (1 : ℝ) ≠ 0 ∧
    (v_axial 1 1 0 1e-6 none (some 6) = 1 * ((1/6 + 2) * (1/6 + 1)) / 2 ∧
      v_axial 1 1 (1/2) 1e-6 none (some 6) = 0) :=
  ⟨by norm_num, by norm_num,
    by
      have h := v_axial_turbulent 1 1 0 1e-6 (by norm_num) (by norm_num)
      have h2 := v_axial_turbulent 1 1 (1/2) 1e-6 (by norm_num) (by norm_num)
      exact ⟨h.2.1, by simpa using h2.2.2.1⟩⟩

/-- C9: in the laminar regime `v_mean * d_pipe / nu < 2300`, the result of
`v_axial` does not depend on `lambda_` or `n` at all: two calls agreeing
on `v_mean`, `d_pipe`, `r` and `nu` return equal values regardless of the
values passed for `lambda_` and `n`. -/
theorem v_axial_laminar_ignores_lambda_n (v_mean d_pipe r nu : ℝ)
    (l1 l2 : Option ℝ) (n1 n2 : Option ℝ)
    (hRe : v_mean * d_pipe / nu < 2300) :
    v_axial v_mean d_pipe r nu l1 n1 = v_axial v_mean d_pipe r nu l2 n2 := by
  rw [v_axial.eq_def, if_pos hRe, v_axial.eq_def, if_pos hRe]

/-- C9 witness: laminar noninterference at `v_mean = 1`, `d_pipe = 1`,
`r = 1/4`, `nu = 1` for two very different `(lambda_, n)` pairs. -/
theorem v_axial_laminar_ignores_lambda_n_witness :
    (1 : ℝ) * 1 / 1 < 2300 ∧
    v_axial 1 1 (1/4) 1 (some 0.04) (some 5)
      = v_axial 1 1 (1/4) 1 none none :=
  ⟨by norm_num,
    v_axial_laminar_ignores_lambda_n 1 1 (1/4) 1 (some 0.04) none
      (some 5) none (by norm_num)⟩

/-- Solidus temperature of `Iron` (`FerrousMetals.py`):
`self.T_sol = C2K(1430)`. -/
def Iron_T_sol : ℚ := C2K 1430

/-- Liquidus temperature of `Iron`: `self.T_liq = self.T_sol + 50`. -/
def Iron_T_liq : ℚ := Iron_T_sol + 50

/-- Deformation temperature of `Iron`:
`self.T_deform = self.T_sol + 0.66 * (self.T_liq - self.T_sol)`. -/
def Iron_T_deform : ℚ := Iron_T_sol + 0.66 * (Iron_T_liq - Iron_T_sol)

/-- The dynamic viscosity rule `Iron._mu` of `FerrousMetals.py`:
`0.3699e-3 * np.exp(41.4e3 / (8.3144 * T)) if T > self.T_deform else 1e20`. -/
noncomputable def Iron_mu (T : ℝ) : ℝ :=
  if T > (Iron_T_deform : ℝ)
  then 0.3699e-3 * Real.exp (41.4e3 / (8.3144 * T))
  else 1e20

/-- C10: the `Iron` dynamic-viscosity rule is the piecewise expression
split at `T_deform = T_sol + 0.66 * (T_liq - T_sol)`: for every `T` less
than or equal to `T_deform` it returns the constant sentinel `1e20`, and
for every `T` greater than `T_deform` it returns the Arrhenius expression
`0.3699e-3 * exp(41.4e3 / (8.3144 * T))` (a discontinuous switch at
`T_deform`). -/
theorem iron_mu_branches :
    (∀ T : ℝ, T ≤ (Iron_T_deform : ℝ) → Iron_mu T = 1e20) ∧
    (∀ T : ℝ, T > (Iron_T_deform : ℝ) →
      Iron_mu T = 0.3699e-3 * Real.exp (41.4e3 / (8.3144 * T))) ∧
    Iron_T_deform = Iron_T_sol + 0.66 * (Iron_T_liq - Iron_T_sol) := by
  refine ⟨?_, ?_, rfl⟩
  · intro T h
    rw [Iron_mu, if_neg (not_lt.mpr h)]
  · intro T h
    rw [Iron_mu, if_pos h]

/-- C10 witness: `T_deform = 1736.15 K`; the sentinel branch at
`T = 1700 K` and the Arrhenius branch at `T = 1800 K`. -/
theorem iron_mu_branches_witness :
    (1700 : ℝ) ≤ (Iron_T_deform : ℝ) ∧
    (1800 : ℝ) > (Iron_T_deform : ℝ) ∧
    Iron_mu 1700 = 1e20 ∧
    Iron_mu 1800 = 0.3699e-3 * Real.exp (41.4e3 / (8.3144 * 1800)) := by
  have hq : (Iron_T_deform : ℚ) = 1736.15 := by
    norm_num [Iron_T_deform, Iron_T_sol, Iron_T_liq, C2K]
  have hle : (1700 : ℝ) ≤ (Iron_T_deform : ℝ) := by
    rw [hq]
    norm_num
  have hgt : (1800 : ℝ) > (Iron_T_deform : ℝ) := by
    rw [hq]
    norm_num
  exact ⟨hle, hgt, iron_mu_branches.1 1700 hle, iron_mu_branches.2.1 1800 hgt⟩

end Coloredlids
